import Mathlib

/-!
Shallow embedding of the dbmate CLI wrapper (`src/main.go`): the command
dispatcher, the Slack failure-notification pipeline run after `migrate`,
the `status` exit-code logic, and the database-URL configuration resolver.

The process environment is modelled as an association list of
(name, value) pairs; the external migration engine is modelled as an
oracle record of operation results; an HTTP POST is modelled as the
record of the request the program would issue.
-/

namespace DbmateCLI

/-- Process environment: an ordered association list of variable names to
values.  Real environments never contain an empty variable name. -/
abbrev EnvMap := List (String × String)

/-- Model of Go `os.LookupEnv`: the value of `name` if present. -/
def lookupEnv (env : EnvMap) (name : String) : Option String :=
  (env.find? (fun kv => kv.1 == name)).map (fun kv => kv.2)

/-- Model of Go `os.Getenv`: the value of `name`, or `""` when unset. -/
def getenv (env : EnvMap) (name : String) : String :=
  (lookupEnv env name).getD ""

/-- Field of a Slack attachment (struct `Field` in `main.go`): JSON keys
`title` and `value`, in declaration order. -/
structure Field where
  title : String
  value : String
  deriving Repr, DecidableEq

/-- Struct `SlackAttachment` in `main.go`: JSON keys `color`, `pretext`,
`fallback`, `text`, `fields`, in declaration order. -/
structure SlackAttachment where
  color : String
  pretext : String
  fallback : String
  text : String
  fields : List Field
  deriving Repr, DecidableEq

/-- Struct `SlackMessage` in `main.go`: single JSON key `attachments`. -/
structure SlackMessage where
  attachments : List SlackAttachment
  deriving Repr, DecidableEq

/-- Lowercase hexadecimal digit, as used by `encoding/json` escapes. -/
def hexDigit (n : Nat) : Char :=
  if n < 10 then Char.ofNat (48 + n) else Char.ofNat (87 + n)

/-- Escape of one character inside a JSON string, following Go
`encoding/json` with its default HTML escaping: quote, backslash,
newline, carriage return and tab get two-character escapes; other
control characters, angle brackets and ampersand get unicode escapes;
everything else is written verbatim. -/
def goJSONEscapeChar (c : Char) : String :=
  if c = '"' then "\\\""
  else if c = '\\' then "\\\\"
  else if c = '\n' then "\\n"
  else if c = '\r' then "\\r"
  else if c = '\t' then "\\t"
  else if c.toNat < 0x20 then
    String.mk ['\\', 'u', '0', '0', hexDigit (c.toNat / 16), hexDigit (c.toNat % 16)]
  else if c = '<' then "\\u003c"
  else if c = '>' then "\\u003e"
  else if c = '&' then "\\u0026"
  else if c.toNat = 0x2028 then "\\u2028"
  else if c.toNat = 0x2029 then "\\u2029"
  else String.singleton c

/-- Quoted JSON string as produced by Go `encoding/json`. -/
def goJSONQuote (s : String) : String :=
  "\"" ++ String.join (s.data.map goJSONEscapeChar) ++ "\""

/-- Go `json.Marshal` of a `Field` value (compact encoding, struct fields
in declaration order). -/
def marshalField (f : Field) : String :=
  "\x7b\"title\":" ++ goJSONQuote f.title ++ ",\"value\":" ++ goJSONQuote f.value ++ "\x7d"

/-- Go `json.Marshal` of the non-nil `fields` slice: `[]` when empty. -/
def marshalFieldList (l : List Field) : String :=
  "[" ++ String.intercalate "," (l.map marshalField) ++ "]"

/-- Go `json.Marshal` of a `SlackAttachment` value. -/
def marshalAttachment (a : SlackAttachment) : String :=
  "\x7b\"color\":" ++ goJSONQuote a.color ++
  ",\"pretext\":" ++ goJSONQuote a.pretext ++
  ",\"fallback\":" ++ goJSONQuote a.fallback ++
  ",\"text\":" ++ goJSONQuote a.text ++
  ",\"fields\":" ++ marshalFieldList a.fields ++ "\x7d"

/-- Go `json.Marshal` of a `SlackMessage` value. -/
def marshalSlackMessage (m : SlackMessage) : String :=
  "\x7b\"attachments\":[" ++
    String.intercalate "," (m.attachments.map marshalAttachment) ++ "]\x7d"

/-- Character-level splitting at every occurrence of `sep`, with Go
`strings.Split` semantics for a one-character separator: the empty
input yields one empty group. -/
def splitAll (sep : Char) : List Char → List (List Char)
  | [] => [[]]
  | c :: rest =>
    if c = sep then [] :: splitAll sep rest
    else
      match splitAll sep rest with
      | [] => [[c]]
      | g :: gs => (c :: g) :: gs

/-- Model of `strings.Split(c.GlobalString("env-vars"), ",")` as executed
at line 129 of `main.go`.  Go `strings.Split` of the empty string yields
a one-element list holding the empty string. -/
def splitEnvVars (flagValue : String) : List String :=
  (splitAll ',' flagValue.data).map String.mk

/-- The context-field collection loop of the migrate action
(lines 134-144 of `main.go`): start from an empty slice and append a
(title, value) pair for each candidate name that is set. -/
def collectFields (env : EnvMap) (names : List String) : List Field :=
  names.foldl
    (fun fields name =>
      match lookupEnv env name with
      | some _ => fields ++ [{ title := name, value := getenv env name }]
      | none => fields)
    []

/-- Specification-level description of the context fields (spec item 3 of
the Notification Pipeline): one pair per configured name that is present
in the environment, in flag order. -/
def contextFieldsSpec (env : EnvMap) (names : List String) : List Field :=
  names.filterMap (fun n => (lookupEnv env n).map (fun v => { title := n, value := v }))

/-- The HTTP POST a run would issue: target URL, content type, and
serialized body. -/
structure HttpPost where
  url : String
  contentType : String
  body : String
  deriving Repr, DecidableEq

/-- Terminal outcome of one subcommand action: success, an engine or
configuration error message, or a `cli.NewExitError` signal carrying a
message and an exit status. -/
inductive Outcome where
  | ok : Outcome
  | err (msg : String) : Outcome
  | exit (msg : String) (code : Nat) : Outcome
  deriving Repr, DecidableEq

/-- Outcome corresponding to a Go `error` return value. -/
def Outcome.fromErr : Option String → Outcome
  | none => Outcome.ok
  | some e => Outcome.err e

/-- Everything observable from one action: its returned outcome, the
HTTP POST it issued (if any), and the diagnostic lines it printed. -/
structure ActionResult where
  outcome : Outcome
  post : Option HttpPost
  log : List String
  deriving Repr, DecidableEq

/-- The migrate action (lines 124-170 of `main.go`).  `migrateErr` is the
result of `db.Migrate()` (`some e` when it failed with message `e`);
`postErr` is the transport result of `http.Post` (`some t` when the POST
would fail), consulted only if a POST is issued.  The notification block
runs only when the migration failed and the webhook variable is set; the
function always returns the original `db.Migrate()` error. -/
def migrateAction (env : EnvMap) (webhookVar envVarsFlag : String)
    (migrateErr : Option String) (postErr : Option String) : ActionResult :=
  match migrateErr, lookupEnv env webhookVar with
  | some e, some _ =>
    let env_vars := splitEnvVars envVarsFlag
    let splitLog := "env-vars split: [" ++ String.intercalate " " env_vars ++ "]"
    let fields := collectFields env env_vars
    let slack_message : SlackMessage :=
      { attachments := [{
          fallback := "Migration had error: " ++ e
          color := "#FF0000"
          pretext := "There was an issue running migrations on this instance."
          text := e
          fields := fields }] }
    let url := getenv env webhookVar
    let body := marshalSlackMessage slack_message
    let postLog :=
      match postErr with
      | some _ => ["could not send to webhook: " ++ url]
      | none => []
    { outcome := Outcome.err e
      post := some { url := url, contentType := "application/json", body := body }
      log := splitLog :: postLog }
  | me, _ => { outcome := Outcome.fromErr me, post := none, log := [] }

/-- The status action (lines 193-210 of `main.go`): `exit-code` is forced
true by `quiet`; an engine error propagates; otherwise a positive pending
count with exit-code behavior active yields `cli.NewExitError("", 1)`. -/
def statusAction (exitCodeFlag quiet : Bool) (statusRes : Except String Nat) : Outcome :=
  let setExitCode := if quiet then true else exitCodeFlag
  match statusRes with
  | Except.error e => Outcome.err e
  | Except.ok pending =>
    if pending > 0 && setExitCode then Outcome.exit "" 1 else Outcome.ok

/-- Oracle for the external migration engine (`dbmate.DB`): the result
each operation would return in this run.  `some e` is an error with
message `e`; `status` may depend on the `quiet` argument it is given. -/
structure Engine where
  newMigration : String → Option String
  createAndMigrate : Option String
  create : Option String
  drop : Option String
  migrate : Option String
  rollback : Option String
  status : Bool → Except String Nat
  dumpSchema : Option String
  wait : Option String

/-- The subcommands of the CLI, with their own flags where present. -/
inductive Command where
  | new (name : String)
  | up
  | create
  | drop
  | migrate
  | rollback
  | status (exitCodeFlag quiet : Bool)
  | dump
  | wait
  deriving Repr, DecidableEq

/-- Result of an action that only forwards the engine result. -/
def simpleResult (res : Option String) : ActionResult :=
  { outcome := Outcome.fromErr res, post := none, log := [] }

/-- Dispatch of one subcommand to its action (the `app.Commands` table of
`main.go`): every command except `migrate` forwards the engine result
verbatim; `status` applies its exit-code logic; only `migrate` runs the
notification pipeline. -/
def runCommand (db : Engine) (env : EnvMap) (webhookVar envVarsFlag : String)
    (postErr : Option String) : Command → ActionResult
  | Command.new name => simpleResult (db.newMigration name)
  | Command.up => simpleResult db.createAndMigrate
  | Command.create => simpleResult db.create
  | Command.drop => simpleResult db.drop
  | Command.migrate => migrateAction env webhookVar envVarsFlag db.migrate postErr
  | Command.rollback => simpleResult db.rollback
  | Command.status ec q =>
    { outcome := statusAction ec q (db.status q), post := none, log := [] }
  | Command.dump => simpleResult db.dumpSchema
  | Command.wait => simpleResult db.wait

/-- Parsed URL, restricted to the structure this program relies on
(Go `net/url.URL`).  The zero value is the well-formed, semantically
empty URL. -/
structure GoURL where
  scheme : String := ""
  opaquePart : String := ""
  host : String := ""
  path : String := ""
  rawQuery : String := ""
  fragment : String := ""
  forceQuery : Bool := false
  deriving Repr, DecidableEq

/-- Naive Go quoting of an error operand, adequate for strings without
escape-worthy characters (the fragment of `strconv.Quote` exercised
here). -/
def goQuote (s : String) : String :=
  "\"" ++ s ++ "\""

/-- Go `stringContainsCTLByte`: a byte below space or equal to 0x7f.
Characters at or above 0x80 encode to bytes at or above 0x80, so the
character-level check agrees with the byte-level one. -/
def containsCTLByte (s : String) : Bool :=
  s.data.any (fun c => c.toNat < 0x20 || c.toNat == 0x7f)

/-- First-occurrence split around `sep`: `none` when absent, otherwise
the characters before and after the first `sep`. -/
def cutChar (sep : Char) : List Char → Option (List Char × List Char)
  | [] => none
  | c :: rest =>
    if c = sep then some ([], rest)
    else
      match cutChar sep rest with
      | none => none
      | some (a, b) => some (c :: a, b)

/-- Go `split(s, sep, cutc)` from `net/url`: split around the first
occurrence of `sep`; when absent, everything is the first component;
`cutc` decides whether `sep` itself is dropped from the remainder. -/
def splitGo (s : String) (sep : Char) (cutc : Bool) : String × String :=
  match cutChar sep s.data with
  | none => (s, "")
  | some (a, b) => (String.mk a, if cutc then String.mk b else String.mk (sep :: b))

/-- Inner loop of Go `net/url.getScheme`, scanning characters with the
already-scanned ones accumulated in `seen` (empty exactly at index 0):
letters continue; digits and `+`/`-`/`.` continue except at index 0,
where the whole input is the remainder; a colon at index 0 is the
"missing protocol scheme" error and otherwise ends the scheme; any
other character means there is no scheme. -/
def getSchemeLoop (orig : String) : List Char → List Char → Except String (String × String)
  | [], _ => Except.ok ("", orig)
  | c :: rest, seen =>
    if ('a' ≤ c ∧ c ≤ 'z') ∨ ('A' ≤ c ∧ c ≤ 'Z') then
      getSchemeLoop orig rest (seen ++ [c])
    else if ('0' ≤ c ∧ c ≤ '9') ∨ c = '+' ∨ c = '-' ∨ c = '.' then
      if seen.isEmpty then Except.ok ("", orig)
      else getSchemeLoop orig rest (seen ++ [c])
    else if c = ':' then
      if seen.isEmpty then Except.error "missing protocol scheme"
      else Except.ok (String.mk seen, String.mk rest)
    else Except.ok ("", orig)

/-- Go `net/url.getScheme`: split a leading `scheme:` off the URL. -/
def getScheme (rawURL : String) : Except String (String × String) :=
  getSchemeLoop rawURL rawURL.data []

/-- ASCII lowercasing of one character.  The scheme returned by
`getScheme` consists of ASCII letters, digits, `+`, `-` and `.` only,
on which this agrees with Go `strings.ToLower`. -/
def toLowerASCII (c : Char) : Char :=
  if 'A' ≤ c ∧ c ≤ 'Z' then Char.ofNat (c.toNat + 32) else c

/-- Go `strings.ToLower` restricted to the ASCII scheme characters. -/
def schemeToLower (s : String) : String :=
  String.mk (s.data.map toLowerASCII)

/-- True when `rest` ends in `?` and contains no other `?` (the Go
force-query condition). -/
def forceQueryCond (rest : String) : Bool :=
  match rest.data.reverse with
  | [] => false
  | last :: before => last == '?' && !(before.any (fun c => c == '?'))

/-- Model of the fragment of Go `net/url.parse` (with `viaRequest`
false) exercised by this program: the control-character check, the `*`
case, scheme extraction, the query split, the opaque/rootless branch
with its first-segment colon check, and a simplified authority branch
that stores the raw authority as the host (userinfo splitting, host
validation and percent-decoding of the path are not modelled — no claim
depends on them). -/
def urlParseNoFrag (rawURL : String) : Except String GoURL :=
  if containsCTLByte rawURL then
    Except.error "net/url: invalid control character in URL"
  else if rawURL = "*" then
    Except.ok { path := "*" }
  else
    match getScheme rawURL with
    | Except.error e => Except.error e
    | Except.ok (scheme0, rest0) =>
      let scheme := schemeToLower scheme0
      let (rest, rawQuery, forceQuery) :=
        if forceQueryCond rest0 then
          (String.mk rest0.data.dropLast, "", true)
        else
          let (r, q) := splitGo rest0 '?' true
          (r, q, false)
      match rest.data with
      | '/' :: '/' :: afterSlashes =>
        let (authority, tail) := splitGo (String.mk afterSlashes) '/' false
        Except.ok { scheme := scheme, host := authority, path := tail,
                    rawQuery := rawQuery, forceQuery := forceQuery }
      | _ =>
        if scheme ≠ "" then
          Except.ok { scheme := scheme, opaquePart := rest,
                      rawQuery := rawQuery, forceQuery := forceQuery }
        else if ((splitGo rest '/' true).1).data.any (fun c => c == ':') then
          Except.error "first path segment in URL cannot contain colon"
        else
          Except.ok { path := rest, rawQuery := rawQuery, forceQuery := forceQuery }

/-- Model of Go `net/url.Parse`: cut a `#fragment` off, run the parser,
and wrap any failure as `parse "<url>": <cause>` (the `url.Error`
message). -/
def urlParse (rawURL : String) : Except String GoURL :=
  let (u, frag) := splitGo rawURL '#' true
  match urlParseNoFrag u with
  | Except.error e => Except.error ("parse " ++ goQuote u ++ ": " ++ e)
  | Except.ok parsed =>
    if frag = "" then Except.ok parsed
    else Except.ok { parsed with fragment := frag }

/-- Function `getDatabaseURL` of `main.go` (lines 260-265): read the
environment variable named by the `env` flag and parse its value as a
URL. -/
def getDatabaseURL (env : EnvMap) (envFlag : String) : Except String GoURL :=
  urlParse (getenv env envFlag)

/-- The `action` wrapper of `main.go` (lines 243-257): resolve the
database URL first and return its parse error unchanged on failure;
otherwise build the engine handle (modelled by the `db` oracle, which
absorbs the handle knobs `AutoDumpSchema`, `MigrationsDir`,
`SchemaFile`, `WaitBefore`) and dispatch the requested command. -/
def actionWrap (env : EnvMap) (envFlag : String) (db : Engine)
    (webhookVar envVarsFlag : String) (postErr : Option String)
    (cmd : Command) : ActionResult :=
  match getDatabaseURL env envFlag with
  | Except.error e => { outcome := Outcome.err e, post := none, log := [] }
  | Except.ok _ => runCommand db env webhookVar envVarsFlag postErr cmd

/-! ## Helper lemmas -/

/-- The collection loop computes the specification-level field list, for
any accumulator. -/
theorem collectFields_foldl (env : EnvMap) (names : List String) :
    ∀ acc : List Field,
      names.foldl
        (fun fields name =>
          match lookupEnv env name with
          | some _ => fields ++ [{ title := name, value := getenv env name }]
          | none => fields)
        acc
      = acc ++ contextFieldsSpec env names := by
  induction names with
  | nil => intro acc; simp [contextFieldsSpec]
  | cons n ns ih =>
    intro acc
    rw [List.foldl_cons]
    cases h : lookupEnv env n with
    | none =>
      simp only [h]
      rw [ih acc]
      simp [contextFieldsSpec, h]
    | some v =>
      simp only [h]
      rw [ih]
      simp [contextFieldsSpec, h, getenv, List.append_assoc]

/-- The migrate action's field-collection loop equals its specification. -/
theorem collectFields_eq_spec (env : EnvMap) (names : List String) :
    collectFields env names = contextFieldsSpec env names := by
  have h := collectFields_foldl env names []
  simpa [collectFields] using h

/-- Looking up the empty variable name in a well-formed environment (one
with no empty names) finds nothing. -/
theorem lookupEnv_empty_name (env : EnvMap) (h : ∀ kv ∈ env, kv.1 ≠ "") :
    lookupEnv env "" = none := by
  unfold lookupEnv
  cases hf : env.find? (fun kv => kv.1 == "") with
  | none => rfl
  | some kv =>
    have h1 := List.find?_some hf
    have h2 := List.mem_of_find?_eq_some hf
    simp only [beq_iff_eq] at h1
    exact absurd h1 (h kv h2)

/-- Shape of the POST issued by the migrate action when the migration
failed and the webhook variable holds `u`. -/
theorem migrateAction_post (env : EnvMap) (webhookVar envVarsFlag : String)
    (e : String) (postErr : Option String) (u : String)
    (h : lookupEnv env webhookVar = some u) :
    (migrateAction env webhookVar envVarsFlag (some e) postErr).post
      = some { url := u, contentType := "application/json",
               body := marshalSlackMessage
                 { attachments := [{
                     color := "#FF0000"
                     pretext := "There was an issue running migrations on this instance."
                     fallback := "Migration had error: " ++ e
                     text := e
                     fields := collectFields env (splitEnvVars envVarsFlag) }] } } := by
  unfold migrateAction
  rw [h]
  simp [getenv, h]

/-! ## Claim theorems -/

/-- C1: the migrate action's returned outcome is always exactly the
engine's original `Migrate()` result — an error is returned unchanged
whatever the notification attempt does (the `postErr` argument), and
success returns success. -/
theorem migrate_returns_original_engine_error (env : EnvMap)
    (webhookVar envVarsFlag : String) (migrateErr postErr : Option String) :
    (migrateAction env webhookVar envVarsFlag migrateErr postErr).outcome
      = Outcome.fromErr migrateErr := by
  cases migrateErr with
  | none => rfl
  | some e =>
    unfold migrateAction
    cases h : lookupEnv env webhookVar <;> simp [Outcome.fromErr]

/-- C2: a POST is issued if and only if the command is `migrate`, the
engine's `Migrate()` failed and the webhook variable is set; moreover,
with the webhook variable unset, `migrate` issues no POST and returns
the engine result unchanged, and a successful `migrate` never POSTs. -/
theorem post_iff_migrate_error_and_webhook (db : Engine) (env : EnvMap)
    (webhookVar envVarsFlag : String) (postErr : Option String) (cmd : Command) :
    ((runCommand db env webhookVar envVarsFlag postErr cmd).post.isSome = true ↔
      cmd = Command.migrate ∧ db.migrate.isSome = true
        ∧ (lookupEnv env webhookVar).isSome = true)
    ∧ (lookupEnv env webhookVar = none →
        (runCommand db env webhookVar envVarsFlag postErr Command.migrate).post = none
        ∧ (runCommand db env webhookVar envVarsFlag postErr Command.migrate).outcome
            = Outcome.fromErr db.migrate)
    ∧ (db.migrate = none →
        (runCommand db env webhookVar envVarsFlag postErr Command.migrate).post = none) := by
  refine ⟨?_, ?_, ?_⟩
  · cases cmd <;>
      simp only [runCommand, simpleResult] <;>
      try simp
    · -- migrate case
      unfold migrateAction
      cases hm : db.migrate <;> cases hw : lookupEnv env webhookVar <;>
        simp [hm, hw, Outcome.fromErr]
  · intro hw
    simp only [runCommand]
    unfold migrateAction
    cases hm : db.migrate <;> simp [hw, Outcome.fromErr]
  · intro hm
    simp only [runCommand]
    unfold migrateAction
    cases hw : lookupEnv env webhookVar <;> simp [hm, Outcome.fromErr]

/-- C2 witness: with a failing engine and the webhook variable set, the
migrate command issues a POST. -/
theorem post_iff_migrate_error_and_webhook_witness :
    (runCommand
      { newMigration := fun _ => none, createAndMigrate := none, create := none,
        drop := none, migrate := some "migration failed", rollback := none,
        status := fun _ => Except.ok 0, dumpSchema := none, wait := none }
      [("SLACK_WEBHOOK_URL", "https://hooks.example/x")]
      "SLACK_WEBHOOK_URL" "" none Command.migrate).post.isSome = true :=
  ((post_iff_migrate_error_and_webhook
      { newMigration := fun _ => none, createAndMigrate := none, create := none,
        drop := none, migrate := some "migration failed", rollback := none,
        status := fun _ => Except.ok 0, dumpSchema := none, wait := none }
      [("SLACK_WEBHOOK_URL", "https://hooks.example/x")]
      "SLACK_WEBHOOK_URL" "" none Command.migrate).1).mpr
    ⟨rfl, by decide, by decide⟩

/-- C3: the posted fields are exactly one (title, value) pair per
comma-split flag name that is set in the environment, with the variable
name as title and its value as value, in flag order; in particular with
`env-vars=FOO,BAR` and only `FOO=1` set the fields are exactly
`[{title FOO, value 1}]`. -/
theorem migrate_context_fields_exact (env : EnvMap) (envVarsFlag : String) :
    collectFields env (splitEnvVars envVarsFlag)
      = contextFieldsSpec env (splitEnvVars envVarsFlag)
    ∧ contextFieldsSpec env (splitEnvVars envVarsFlag)
      = (splitEnvVars envVarsFlag).filterMap
          (fun n => (lookupEnv env n).map (fun v => { title := n, value := v }))
    ∧ collectFields [("FOO", "1")] (splitEnvVars "FOO,BAR")
      = [{ title := "FOO", value := "1" }] := by
  refine ⟨collectFields_eq_spec env (splitEnvVars envVarsFlag), rfl, by decide⟩

/-- C4: when a notification is sent for migration error `e`, the POST is
a single request to the URL held in the webhook variable, with content
type `application/json` and body the serialization of one attachment
with color `#FF0000`, the fixed pretext, fallback
`Migration had error: e` and text `e`. -/
theorem notification_payload_shape (env : EnvMap)
    (webhookVar envVarsFlag : String) (e : String) (postErr : Option String)
    (u : String) (h : lookupEnv env webhookVar = some u) :
    (migrateAction env webhookVar envVarsFlag (some e) postErr).post
      = some { url := u, contentType := "application/json",
               body := marshalSlackMessage
                 { attachments := [{
                     color := "#FF0000"
                     pretext := "There was an issue running migrations on this instance."
                     fallback := "Migration had error: " ++ e
                     text := e
                     fields := collectFields env (splitEnvVars envVarsFlag) }] } } :=
  migrateAction_post env webhookVar envVarsFlag e postErr u h

/-- C4 witness: concrete instantiation with the webhook variable set. -/
theorem notification_payload_shape_witness :
    (migrateAction [("SLACK_WEBHOOK_URL", "https://hooks.example/x")]
        "SLACK_WEBHOOK_URL" "" (some "boom") none).post
      = some { url := "https://hooks.example/x", contentType := "application/json",
               body := marshalSlackMessage
                 { attachments := [{
                     color := "#FF0000"
                     pretext := "There was an issue running migrations on this instance."
                     fallback := "Migration had error: " ++ "boom"
                     text := "boom"
                     fields := collectFields [("SLACK_WEBHOOK_URL", "https://hooks.example/x")]
                       (splitEnvVars "") }] } } :=
  notification_payload_shape [("SLACK_WEBHOOK_URL", "https://hooks.example/x")]
    "SLACK_WEBHOOK_URL" "" "boom" none "https://hooks.example/x" rfl

/-- C5: when `Status` succeeds, a positive pending count with exit-code
behavior active (the flag set, or implied by quiet) yields the distinct
exit signal with status 1 and an empty message — never an engine error —
while a zero pending count or inactive exit-code behavior yields
success. -/
theorem status_pending_exit_code (ec q : Bool) (p : Nat) :
    ((0 < p ∧ (ec || q) = true) →
        statusAction ec q (Except.ok p) = Outcome.exit "" 1
        ∧ ∀ m, statusAction ec q (Except.ok p) ≠ Outcome.err m)
    ∧ ((p = 0 ∨ (ec || q) = false) →
        statusAction ec q (Except.ok p) = Outcome.ok) := by
  constructor
  · rintro ⟨hp, hb⟩
    have hdp : decide (p > 0) = true := decide_eq_true hp
    have hs : statusAction ec q (Except.ok p) = Outcome.exit "" 1 := by
      unfold statusAction
      cases q <;> cases ec <;> simp_all
    exact ⟨hs, fun m => by rw [hs]; simp⟩
  · intro h
    unfold statusAction
    rcases h with hp | hb
    · subst hp; cases q <;> cases ec <;> simp
    · cases q <;> cases ec <;> simp_all

/-- C5 witness: three pending migrations under `--exit-code` exit with
status 1 and no message. -/
theorem status_pending_exit_code_witness :
    statusAction true false (Except.ok 3) = Outcome.exit "" 1 :=
  ((status_pending_exit_code true false 3).1 ⟨by decide, by decide⟩).1

/-- C6: for every explicit value of the exit-code flag and every engine
result, `status` with quiet set behaves exactly as if exit-code were
also set. -/
theorem status_quiet_forces_exit_code (db : Engine) (env : EnvMap)
    (webhookVar envVarsFlag : String) (postErr : Option String) (ec : Bool) :
    runCommand db env webhookVar envVarsFlag postErr (Command.status ec true)
      = runCommand db env webhookVar envVarsFlag postErr (Command.status true true) := rfl

/-- C7: when parsing the database-URL environment variable fails, the
wrapper returns that parse error as the terminal outcome, for every
subcommand, and the result does not depend on the engine — no engine
operation is invoked. -/
theorem parse_failure_aborts_before_engine (env : EnvMap) (envFlag : String)
    (e : String) (h : getDatabaseURL env envFlag = Except.error e)
    (db db2 : Engine) (webhookVar envVarsFlag : String)
    (postErr : Option String) (cmd : Command) :
    actionWrap env envFlag db webhookVar envVarsFlag postErr cmd
      = { outcome := Outcome.err e, post := none, log := [] }
    ∧ actionWrap env envFlag db webhookVar envVarsFlag postErr cmd
      = actionWrap env envFlag db2 webhookVar envVarsFlag postErr cmd := by
  unfold actionWrap
  rw [h]
  exact ⟨rfl, rfl⟩

/-- C7 witness: a database URL starting with a colon fails to parse and
aborts the `up` subcommand with the parse error. -/
theorem parse_failure_aborts_before_engine_witness :
    actionWrap [("DATABASE_URL", ":foo")] "DATABASE_URL"
        { newMigration := fun _ => none, createAndMigrate := none, create := none,
          drop := none, migrate := none, rollback := none,
          status := fun _ => Except.ok 0, dumpSchema := none, wait := none }
        "SLACK_WEBHOOK_URL" "" none Command.up
      = { outcome := Outcome.err "parse \":foo\": missing protocol scheme",
          post := none, log := [] } :=
  (parse_failure_aborts_before_engine [("DATABASE_URL", ":foo")] "DATABASE_URL"
      "parse \":foo\": missing protocol scheme" rfl
      { newMigration := fun _ => none, createAndMigrate := none, create := none,
        drop := none, migrate := none, rollback := none,
        status := fun _ => Except.ok 0, dumpSchema := none, wait := none }
      { newMigration := fun _ => none, createAndMigrate := none, create := none,
        drop := none, migrate := none, rollback := none,
        status := fun _ => Except.ok 0, dumpSchema := none, wait := none }
      "SLACK_WEBHOOK_URL" "" none Command.up).1

/-- C8: with the database-URL environment variable unset, its value
reads as the empty string and parsing that empty string succeeds with
the well-formed, semantically empty URL. -/
theorem unset_database_url_parses_empty (env : EnvMap) (envFlag : String)
    (h : lookupEnv env envFlag = none) :
    getenv env envFlag = "" ∧ getDatabaseURL env envFlag = Except.ok ({} : GoURL) := by
  have hg : getenv env envFlag = "" := by simp [getenv, h]
  refine ⟨hg, ?_⟩
  unfold getDatabaseURL
  rw [hg]
  rfl

/-- C8 witness: the empty environment with the default flag value. -/
theorem unset_database_url_parses_empty_witness :
    getenv ([] : EnvMap) "DATABASE_URL" = ""
    ∧ getDatabaseURL ([] : EnvMap) "DATABASE_URL" = Except.ok ({} : GoURL) :=
  unset_database_url_parses_empty [] "DATABASE_URL" rfl

/-- C9: an empty env-vars flag splits into exactly one empty-string
candidate name; in any well-formed environment (no empty variable
names) that name matches nothing, so the context collection yields no
pairs, the same result as an empty candidate list. -/
theorem empty_env_vars_flag_yields_no_context (env : EnvMap)
    (h : ∀ kv ∈ env, kv.1 ≠ "") :
    splitEnvVars "" = [""]
    ∧ collectFields env (splitEnvVars "") = []
    ∧ collectFields env (splitEnvVars "") = collectFields env [] := by
  have hsplit : splitEnvVars "" = [""] := by decide
  have hlk := lookupEnv_empty_name env h
  have hc : collectFields env (splitEnvVars "") = [] := by
    rw [hsplit, collectFields_eq_spec]
    simp [contextFieldsSpec, hlk]
  exact ⟨hsplit, hc, by rw [hc]; rfl⟩

/-- C9 witness: a one-variable environment with a nonempty name. -/
theorem empty_env_vars_flag_yields_no_context_witness :
    splitEnvVars "" = [""]
    ∧ collectFields [("FOO", "1")] (splitEnvVars "") = []
    ∧ collectFields [("FOO", "1")] (splitEnvVars "") = collectFields [("FOO", "1")] [] :=
  empty_env_vars_flag_yields_no_context [("FOO", "1")] (by decide)

/-- C10: when a notification is sent and none of the configured names is
set, the collected field list is empty, it serializes to the empty JSON
array, and the posted body still carries a literal `"fields":[]` key. -/
theorem empty_fields_marshal_empty_array (env : EnvMap)
    (webhookVar envVarsFlag e : String) (postErr : Option String) (u : String)
    (hw : lookupEnv env webhookVar = some u)
    (hn : ∀ n ∈ splitEnvVars envVarsFlag, lookupEnv env n = none) :
    collectFields env (splitEnvVars envVarsFlag) = []
    ∧ marshalFieldList (collectFields env (splitEnvVars envVarsFlag)) = "[]"
    ∧ ∃ post pre suf,
        (migrateAction env webhookVar envVarsFlag (some e) postErr).post = some post
        ∧ post.body = pre ++ "\"fields\":[]" ++ suf := by
  have hcf : collectFields env (splitEnvVars envVarsFlag) = [] := by
    rw [collectFields_eq_spec]
    unfold contextFieldsSpec
    rw [List.filterMap_eq_nil_iff]
    intro n hn2
    rw [hn n hn2]
    rfl
  refine ⟨hcf, by rw [hcf]; rfl, ?_⟩
  have hpost := migrateAction_post env webhookVar envVarsFlag e postErr u hw
  rw [hcf] at hpost
  refine ⟨_,
    "\x7b\"attachments\":[" ++ ("\x7b\"color\":" ++ goJSONQuote "#FF0000"
      ++ ",\"pretext\":"
      ++ goJSONQuote "There was an issue running migrations on this instance."
      ++ ",\"fallback\":" ++ goJSONQuote ("Migration had error: " ++ e)
      ++ ",\"text\":" ++ goJSONQuote e ++ ","),
    "\x7d" ++ "]\x7d", hpost, ?_⟩
  have h1 : marshalSlackMessage
      { attachments := [{
          color := "#FF0000"
          pretext := "There was an issue running migrations on this instance."
          fallback := "Migration had error: " ++ e
          text := e
          fields := ([] : List Field) }] }
      = "\x7b\"attachments\":["
        ++ ("\x7b\"color\":" ++ goJSONQuote "#FF0000"
            ++ ",\"pretext\":"
            ++ goJSONQuote "There was an issue running migrations on this instance."
            ++ ",\"fallback\":" ++ goJSONQuote ("Migration had error: " ++ e)
            ++ ",\"text\":" ++ goJSONQuote e
            ++ ",\"fields\":" ++ "[]" ++ "\x7d")
        ++ "]\x7d" := rfl
  have h3 : (",\"fields\":" : String) = "," ++ "\"fields\":" := rfl
  have h4 : ("\"fields\":[]" : String) = "\"fields\":" ++ "[]" := rfl
  rw [h1, h3, h4]
  simp only [String.append_assoc]

/-- C10 witness: webhook set, one configured name that is unset. -/
theorem empty_fields_marshal_empty_array_witness :
    collectFields [("SLACK_WEBHOOK_URL", "https://hooks.example/x")] (splitEnvVars "NOPE") = []
    ∧ marshalFieldList
        (collectFields [("SLACK_WEBHOOK_URL", "https://hooks.example/x")] (splitEnvVars "NOPE"))
        = "[]"
    ∧ ∃ post pre suf,
        (migrateAction [("SLACK_WEBHOOK_URL", "https://hooks.example/x")]
          "SLACK_WEBHOOK_URL" "NOPE" (some "boom") none).post = some post
        ∧ post.body = pre ++ "\"fields\":[]" ++ suf :=
  empty_fields_marshal_empty_array [("SLACK_WEBHOOK_URL", "https://hooks.example/x")]
    "SLACK_WEBHOOK_URL" "NOPE" "boom" none "https://hooks.example/x" rfl (by decide)

end DbmateCLI
